import Mathlib

/-! Shallow embedding of the CSV reconciliation and query engine of the
order-tracking application (`src/services/csvService.ts` and the filter,
sort and search logic of `src/App.tsx`). CSV rows and reconciled records
are association lists from normalized column name to string value, the
shape JavaScript objects take after parsing; JavaScript falsiness of a
string value is emptiness. The host clock is passed explicitly: `today`
is the current local calendar day as a day number, and the local time
zone is modelled as UTC (the code never applies an offset itself). -/

/-- Whitespace test for the characters `String.prototype.trim` removes in
the ASCII range (space, tab, newline, carriage return). -/
def isWS (c : Char) : Bool := c = ' ' || c = '\t' || c = '\n' || c = '\r'

/-- Model of `String.prototype.trim`: drop leading and trailing whitespace. -/
def jsTrim (s : String) : String :=
  ⟨((s.data.dropWhile isWS).reverse.dropWhile isWS).reverse⟩

/-- Model of the JavaScript `a || b` idiom on strings: the empty string is
falsy, any other string truthy. -/
def jsOr (a b : String) : String := if a = "" then b else a

/-- Model of `String.prototype.toLowerCase` on the ASCII range. -/
def lowerStr (s : String) : String := ⟨s.data.map Char.toLower⟩

/-- Model of `String.prototype.includes`: substring (infix) test. -/
def strContains (hay needle : String) : Bool := decide (needle.data <:+: hay.data)

/-- Split a character list at every separator character, keeping empty
pieces, as `String.prototype.split` does with a single-character class. -/
def splitChars (p : Char → Bool) : List Char → List (List Char)
  | [] => [[]]
  | c :: rest =>
    match splitChars p rest with
    | [] => if p c then [[], []] else [[c]]
    | h :: t => if p c then [] :: h :: t else (c :: h) :: t

/-- Model of `String.prototype.split` with a character-class pattern. -/
def strSplit (p : Char → Bool) (s : String) : List String :=
  (splitChars p s.data).map (fun l => ⟨l⟩)

/-- Character class `\w` of JavaScript regular expressions. -/
def isWordChar (c : Char) : Bool := c.isAlpha || c.isDigit || c = '_'

/-- Character class `[A-Z]`. -/
def isUpperAZ (c : Char) : Bool := 'A' ≤ c && c ≤ 'Z'

/-- Leftmost match of the regular expression `\b([A-Z]{2})\b` used by
`parseDestination`: the first position where two uppercase letters sit
between word boundaries. `prev` is the character just before the scan
position, if any. -/
def findStateCode : Option Char → List Char → Option String
  | prev, a :: b :: rest =>
    if (match prev with | none => true | some p => !isWordChar p)
        && isUpperAZ a && isUpperAZ b
        && (match rest with | [] => true | c :: _ => !isWordChar c) then
      some ⟨[a, b]⟩
    else
      findStateCode (some a) (b :: rest)
  | _, _ => none

/-- Test for the anchored regular expression `^[A-Z]{2}$`. -/
def isStateToken (s : String) : Bool :=
  match s.data with
  | [a, b] => isUpperAZ a && isUpperAZ b
  | _ => false

/-- Result of `parseDestination`: optional city and state. -/
structure Destination where
  city : Option String
  state : Option String
deriving Repr, DecidableEq

/-- Model of `parseDestination` (csvService.ts lines 194-214): empty input
gives `{}`; otherwise split the recipient string on `-` and `,` and trim the
parts, search the whole string for a `\b[A-Z]{2}\b` state code, and when one
is found and there are at least two parts return it as the state together
with the first part that is neither a bare two-letter uppercase token nor
empty as the city (defaulted to the empty string); otherwise `{}`. -/
def parseDestination (recipientName : String) : Destination :=
  if recipientName = "" then ⟨none, none⟩
  else
    let parts := (strSplit (fun c => c = '-' || c = ',') recipientName).map jsTrim
    match findStateCode none recipientName.data with
    | some st =>
      if parts.length ≥ 2 then
        ⟨some ((parts.find? (fun p => !isStateToken p && !(p == ""))).getD ""),
         some st⟩
      else ⟨none, none⟩
    | none => ⟨none, none⟩

/-! Calendar arithmetic. Days are counted from the Unix epoch (1970-01-01 is
day 0), matching the day component of an ECMAScript time value. Floor
division (`Int.fdiv`/`Int.emod`) is used so that pre-epoch dates work. -/

/-- Day number of a proleptic-Gregorian civil date with month in 1..12; the
day component may lie outside the month and carries over, as ECMAScript
`MakeDay` does. -/
def daysFromCivil (y m d : Int) : Int :=
  let y2 := if m ≤ 2 then y - 1 else y
  let era := Int.fdiv y2 400
  let yoe := y2 - era * 400
  let mp := Int.emod (m + 9) 12
  let doy := Int.fdiv (153 * mp + 2) 5 + d - 1
  let doe := yoe * 365 + Int.fdiv yoe 4 - Int.fdiv yoe 100 + doy
  era * 146097 + doe - 719468

/-- Inverse of `daysFromCivil`: the civil date of a day number. -/
def civilFromDays (z : Int) : Int × Int × Int :=
  let z2 := z + 719468
  let era := Int.fdiv z2 146097
  let doe := z2 - era * 146097
  let yoe := Int.fdiv (doe - Int.fdiv doe 1460 + Int.fdiv doe 36524 - Int.fdiv doe 146096) 365
  let y := yoe + era * 400
  let doy := doe - (365 * yoe + Int.fdiv yoe 4 - Int.fdiv yoe 100)
  let mp := Int.fdiv (5 * doy + 2) 153
  let d := doy - Int.fdiv (153 * mp + 2) 5 + 1
  let m := if mp < 10 then mp + 3 else mp - 9
  (if m ≤ 2 then y + 1 else y, m, d)

/-- Model of `new Date(year, month - 1, day)` reduced to its local calendar
day: ECMAScript `MakeDay`, normalizing an out-of-range month or day by
carrying into the neighbouring year or month. -/
def jsMakeDay (y m d : Int) : Int :=
  let ym := y + Int.fdiv (m - 1) 12
  let mn := Int.emod (m - 1) 12 + 1
  daysFromCivil ym mn d

/-- Numeric value of an ASCII digit. -/
def digitVal (c : Char) : Int := (c.toNat : Int) - 48

/-- Match of the anchored regular expression `^(\d{4})-(\d{2})-(\d{2})$` used
by `determineStatus` and `formatDate`, returning the three numeric groups. -/
def bareDate (s : String) : Option (Int × Int × Int) :=
  match s.data with
  | [y1, y2, y3, y4, h1, m1, m2, h2, d1, d2] =>
    if h1 = '-' && h2 = '-' && y1.isDigit && y2.isDigit && y3.isDigit && y4.isDigit
        && m1.isDigit && m2.isDigit && d1.isDigit && d2.isDigit then
      some (digitVal y1 * 1000 + digitVal y2 * 100 + digitVal y3 * 10 + digitVal y4,
            digitVal m1 * 10 + digitVal m2,
            digitVal d1 * 10 + digitVal d2)
    else none
  | _ => none

/-- Length of a month of the Gregorian calendar. -/
def daysInMonth (y m : Int) : Int :=
  if m = 2 then
    if Int.emod y 4 = 0 && (Int.emod y 100 ≠ 0 || Int.emod y 400 = 0) then 29 else 28
  else if m = 4 || m = 6 || m = 9 || m = 11 then 30 else 31

/-- Validity of a civil date as the ECMAScript Date Time String Format
requires it (month 01-12, day 01 to the month's length). -/
def validYMD (y m d : Int) : Bool :=
  1 ≤ m && m ≤ 12 && 1 ≤ d && d ≤ daysInMonth y m

/-- Milliseconds within a day of an `HH:MM` or `HH:MM:SS` time-of-day text. -/
def parseTime : List Char → Option Int
  | [h1, h2, c1, m1, m2] =>
    if c1 = ':' && h1.isDigit && h2.isDigit && m1.isDigit && m2.isDigit then
      let hh := digitVal h1 * 10 + digitVal h2
      let mm := digitVal m1 * 10 + digitVal m2
      if hh ≤ 23 && mm ≤ 59 then some (hh * 3600000 + mm * 60000) else none
    else none
  | [h1, h2, c1, m1, m2, c2, s1, s2] =>
    if c1 = ':' && c2 = ':' && h1.isDigit && h2.isDigit && m1.isDigit && m2.isDigit
        && s1.isDigit && s2.isDigit then
      let hh := digitVal h1 * 10 + digitVal h2
      let mm := digitVal m1 * 10 + digitVal m2
      let ss := digitVal s1 * 10 + digitVal s2
      if hh ≤ 23 && mm ≤ 59 && ss ≤ 59 then
        some (hh * 3600000 + mm * 60000 + ss * 1000)
      else none
    else none
  | _ => none

/-- Model of general-purpose `new Date(string)` parsing, restricted to the
ECMAScript Date Time String Format without an offset (`YYYY-MM-DD`, or
`YYYY-MM-DDTHH:MM` optionally with seconds): returns the time value in
milliseconds, or `none` for an invalid date (`NaN`). Engine-specific
fallback formats outside the standard grammar are modelled as invalid; the
local time zone is modelled as UTC. -/
def jsParseDateMs (s : String) : Option Int :=
  match splitChars (fun c => c = 'T') s.data with
  | [dpart] =>
    match bareDate ⟨dpart⟩ with
    | some (y, m, d) => if validYMD y m d then some (daysFromCivil y m d * 86400000) else none
    | none => none
  | [dpart, tpart] =>
    match bareDate ⟨dpart⟩, parseTime tpart with
    | some (y, m, d), some ms =>
      if validYMD y m d then some (daysFromCivil y m d * 86400000 + ms) else none
    | _, _ => none
  | _ => none

/-- Model of `determineStatus` (csvService.ts lines 153-192). `today` is the
current local calendar day (the code's `new Date()` truncated by
`setHours(0,0,0,0)`), passed explicitly. A bare `YYYY-MM-DD` input is built
from its components via `new Date(y, m-1, d)`; anything else goes through
general date parsing and is truncated to its local day, so the comparison of
the two local midnights is a comparison of day numbers. Empty or unparseable
input yields `in_transit`. -/
def determineStatus (today : Int) (estimatedDelivery : String) : String :=
  if estimatedDelivery = "" then "in_transit"
  else
    let trimmed := jsTrim estimatedDelivery
    match bareDate trimmed with
    | some (y, m, d) =>
      let est := jsMakeDay y m d
      if est < today then "delivered"
      else if est = today then "out_for_delivery"
      else "in_transit"
    | none =>
      match jsParseDateMs trimmed with
      | none => "in_transit"
      | some ms =>
        let est := Int.fdiv ms 86400000
        if est < today then "delivered"
        else if est = today then "out_for_delivery"
        else "in_transit"

/-- Three-letter English month abbreviation used by the `en-US` short month
format. -/
def monthShort (m : Int) : String :=
  if m = 1 then "Jan" else if m = 2 then "Feb" else if m = 3 then "Mar"
  else if m = 4 then "Apr" else if m = 5 then "May" else if m = 6 then "Jun"
  else if m = 7 then "Jul" else if m = 8 then "Aug" else if m = 9 then "Sep"
  else if m = 10 then "Oct" else if m = 11 then "Nov" else if m = 12 then "Dec"
  else ""

/-- ASCII digit character of a value in 0..9. -/
def digitChar (n : Nat) : Char :=
  if n = 0 then '0' else if n = 1 then '1' else if n = 2 then '2'
  else if n = 3 then '3' else if n = 4 then '4' else if n = 5 then '5'
  else if n = 6 then '6' else if n = 7 then '7' else if n = 8 then '8' else '9'

/-- Decimal digits of a natural number, most significant first; the first
argument is recursion fuel, at least the number of digits. -/
def natDigits : Nat → Nat → List Char
  | 0, _ => []
  | fuel + 1, n => if n = 0 then [] else natDigits fuel (n / 10) ++ [digitChar (n % 10)]

/-- Decimal rendering of a natural number below `10 ^ 20`. -/
def natToStr (n : Nat) : String := if n = 0 then "0" else ⟨natDigits 20 n⟩

/-- Decimal rendering of an integer. -/
def intToStr (i : Int) : String :=
  if i < 0 then "-" ++ natToStr i.natAbs else natToStr i.natAbs

/-- Two-digit zero-padded rendering of a nonnegative integer. -/
def pad2 (n : Int) : String :=
  if n < 10 then "0" ++ natToStr n.natAbs else natToStr n.natAbs

/-- `en-US` short date rendering (`toLocaleDateString` with numeric year,
short month, numeric day): `Nov 13, 2025`. -/
def localeDateShort : Int × Int × Int → String
  | (y, m, d) => monthShort m ++ " " ++ intToStr d ++ ", " ++ intToStr y

/-- `en-US` short date-time rendering (`toLocaleString` with numeric year,
short month, numeric day, 2-digit hour and minute): `Nov 13, 2025, 03:05 PM`. -/
def localeDateTimeShort (ms : Int) : String :=
  let day := Int.fdiv ms 86400000
  let msod := ms - day * 86400000
  let hh := Int.fdiv msod 3600000
  let mm := Int.emod (Int.fdiv msod 60000) 60
  let h12 := if Int.emod hh 12 = 0 then 12 else Int.emod hh 12
  let ampm := if hh < 12 then "AM" else "PM"
  localeDateShort (civilFromDays day) ++ ", " ++ pad2 h12 ++ ":" ++ pad2 mm ++ " " ++ ampm

/-- Model of `formatDate` (App.tsx lines 104-135): empty or blank input shows
`N/A`; a bare `YYYY-MM-DD` is built from local components and rendered in the
short `en-US` date format; anything else is parsed generally and rendered
with time, falling back to the input text when unparseable. -/
def formatDate (dateString : String) : String :=
  if dateString = "" then "N/A"
  else
    let trimmed := jsTrim dateString
    if trimmed = "" then "N/A"
    else
      match bareDate trimmed with
      | some (y, m, d) => localeDateShort (civilFromDays (jsMakeDay y m d))
      | none =>
        match jsParseDateMs trimmed with
        | none => dateString
        | some ms => localeDateTimeShort ms

/-! Reconciliation engine (`loadTrackings`, csvService.ts lines 78-151).
A parsed CSV row, and likewise a reconciled record, is an association list
from normalized column name to string value; a JavaScript property read of
an absent key yields `undefined`, which every use here collapses with
`|| ''`, so reads default to the empty string. -/

/-- A parsed CSV row or a reconciled record object. -/
abbrev RawRow := List (String × String)

/-- Property read `row.k || ''`: first binding of the key, defaulted to the
empty string. -/
def rget (row : RawRow) (k : String) : String :=
  ((row.find? (fun p => p.1 == k)).map (fun p => p.2)).getD ""

/-- Model of the supplemental lookup `additionalDataMap` (csvService.ts
lines 87-93): for each supplemental row take `order_number`, else
`order_id`, else `tracking_number`, else `po_number` (first non-empty
wins), and when that key is non-empty store the row under its lower-cased
key; a later row with the same key overwrites an earlier one. The newest
binding is listed first so that `mapGet` finds it. -/
def buildAdditionalMap (rows : List RawRow) : List (String × RawRow) :=
  rows.foldl
    (fun m row =>
      let key := jsOr (jsOr (jsOr (rget row "order_number") (rget row "order_id"))
        (rget row "tracking_number")) (rget row "po_number")
      if key ≠ "" then (lowerStr key, row) :: m else m)
    []

/-- `Map.prototype.get`: the value stored under a key, if any. -/
def mapGet (m : List (String × RawRow)) (k : String) : Option RawRow :=
  ((m.find? (fun p => p.1 == k)).map (fun p => p.2))

/-- Model of the supplemental match resolution (csvService.ts lines
109-113): lookup by the primary row's lower-cased order number, else its
lower-cased tracking number, else its lower-cased PO number, else the
supplemental row at the primary row's index, else an empty match. -/
def matchSupplemental (map : List (String × RawRow)) (additionalData : List RawRow)
    (row : RawRow) (index : Nat) : RawRow :=
  (((mapGet map (lowerStr (rget row "order_number"))).or
      (mapGet map (lowerStr (rget row "tracking_number")))).or
    (mapGet map (lowerStr (rget row "po_number")))).getD
    ((additionalData.get? index).getD [])

/-- The keys the base record defines, in insertion order: the merge loop
skips these via `hasOwnProperty`. -/
def baseTrackingKeys : List String :=
  ["id", "tracking_number", "slug", "tag", "title", "order_id", "po_number",
   "destination_city", "destination_state", "last_updated_at",
   "estimated_delivery", "checkpoint_message", "checkpoint_location",
   "checkpoint_date", "recipient_name", "from_company"]

/-- The base record built from a primary row (csvService.ts lines 96-133):
the field mapping of `baseTracking`, with `today` the current local day used
by `determineStatus`. -/
def baseTracking (today : Int) (row : RawRow) (index : Nat) : RawRow :=
  let trackingNumber := rget row "tracking_number"
  let estimatedDelivery := rget row "estimated_delivery"
  let shipDate := jsOr (rget row "ship_date") (rget row "email_date")
  let orderId := rget row "order_number"
  let tag := determineStatus today estimatedDelivery
  let recipientName := jsOr (rget row "recipient_site_name") (rget row "recipient")
  let destinationParts := parseDestination recipientName
  [("id", jsOr (jsOr orderId (rget row "po_number")) ("tracking-" ++ natToStr index)),
   ("tracking_number", trackingNumber),
   ("slug", lowerStr (rget row "carrier")),
   ("tag", tag),
   ("title", jsOr (rget row "subject")
      (jsTrim (rget row "from_company" ++ " Order " ++ orderId))),
   ("order_id", orderId),
   ("po_number", rget row "po_number"),
   ("destination_city", destinationParts.city.getD ""),
   ("destination_state", destinationParts.state.getD ""),
   ("last_updated_at", jsOr shipDate (rget row "email_date")),
   ("estimated_delivery", estimatedDelivery),
   ("checkpoint_message", jsOr (rget row "body_preview") (rget row "subject")),
   ("checkpoint_location", recipientName),
   ("checkpoint_date", jsOr (jsOr estimatedDelivery shipDate) (rget row "email_date")),
   ("recipient_name", recipientName),
   ("from_company", rget row "from_company")]

/-- One reconciled record (csvService.ts lines 96-142): the base record,
then every key of the matched supplemental row that the base record does not
already define and whose value is truthy, in supplemental key order. -/
def buildTracking (today : Int) (row : RawRow) (index : Nat) (additionalInfo : RawRow) :
    RawRow :=
  baseTracking today row index ++
    additionalInfo.filter (fun kv => !baseTrackingKeys.contains kv.1 && kv.2 ≠ "")

/-- Model of the pure part of `loadTrackings` (csvService.ts lines 86-145):
build the supplemental lookup, reconcile each primary row at its index with
its supplemental match, and drop records whose `tracking_number` is empty or
whitespace-only. -/
def reconcile (today : Int) (ordersData additionalData : List RawRow) : List RawRow :=
  let map := buildAdditionalMap additionalData
  (ordersData.enum.map
      (fun p => buildTracking today p.2 p.1 (matchSupplemental map additionalData p.2 p.1))).filter
    (fun tracking =>
      rget tracking "tracking_number" ≠ "" && jsTrim (rget tracking "tracking_number") ≠ "")

/-- Outcome of fetching one CSV resource: a parsed row list, or an HTTP
failure with its status text. -/
inductive FetchOutcome where
  | ok (rows : List RawRow)
  | fail (statusText : String)
deriving Repr, DecidableEq

/-- Model of `loadCSVFile` (csvService.ts lines 45-76): a failed fetch of
the supplemental path yields an empty row list, a failed fetch of any other
path throws `Failed to load CSV: <statusText>`. -/
def loadCSVFile (outcome : FetchOutcome) (isAdditionalPath : Bool) :
    Except String (List RawRow) :=
  match outcome with
  | .ok rows => .ok rows
  | .fail st => if isAdditionalPath then .ok [] else .error ("Failed to load CSV: " ++ st)

/-- Model of `loadTrackings` (csvService.ts lines 78-151) over explicit
fetch outcomes: the primary load's failure is wrapped once as
`Failed to load CSV file: <message>` and nothing is returned; the
supplemental load falls back to an empty row list on any failure
(both via the supplemental-path branch of `loadCSVFile` and the
`.catch` in `loadTrackings`). -/
def loadTrackings (today : Int) (primary supplemental : FetchOutcome) :
    Except String (List RawRow) :=
  match loadCSVFile primary false with
  | .error msg => .error ("Failed to load CSV file: " ++ msg)
  | .ok ordersData =>
    let additionalData := match loadCSVFile supplemental true with
      | .ok rows => rows
      | .error _ => []
    .ok (reconcile today ordersData additionalData)

/-! Query engine (`filterTrackings`, `sortTrackings`, `handleSort`,
App.tsx lines 168-304). -/

/-- The fixed key set the dynamic search loop skips (App.tsx lines
206-210); every remaining key of the record contributes its value. -/
def excludedSearchKeys : List String :=
  ["id", "tracking_number", "order_id", "po_number", "from_company",
   "recipient_name", "destination_city", "destination_state", "slug",
   "tag", "title", "checkpoint_message", "checkpoint_location",
   "last_updated_at", "estimated_delivery", "checkpoint_date"]

/-- The searchable values of a record (App.tsx lines 181-215): the named
fields, the three date fields rendered through `formatDate`, and every
further key of the record with a truthy value. -/
def allFieldValues (tracking : RawRow) : List String :=
  [rget tracking "tracking_number", rget tracking "order_id",
   rget tracking "po_number", rget tracking "from_company",
   rget tracking "recipient_name", rget tracking "destination_city",
   rget tracking "destination_state", rget tracking "slug",
   rget tracking "tag", rget tracking "title",
   rget tracking "checkpoint_message", rget tracking "checkpoint_location",
   formatDate (rget tracking "last_updated_at"),
   formatDate (rget tracking "estimated_delivery"),
   formatDate (rget tracking "checkpoint_date")] ++
  (tracking.filter (fun kv => !excludedSearchKeys.contains kv.1 && kv.2 ≠ "")).map
    (fun kv => kv.2)

/-- The searchable values after dropping falsy entries and lower-casing
(App.tsx lines 218-220). -/
def searchableFields (tracking : RawRow) : List String :=
  ((allFieldValues tracking).filter (fun v => v ≠ "")).map lowerStr

/-- Model of `filterTrackings` (App.tsx lines 168-227): keep records whose
`tag` is in the status set when that set is non-empty, then, when the search
text is non-blank, keep records some searchable field of which contains the
lower-cased trimmed search text. -/
def filterTrackings (trackings : List RawRow) (search : String) (statuses : List String) :
    List RawRow :=
  let filtered :=
    if statuses.length > 0 then
      trackings.filter (fun tracking => statuses.contains (rget tracking "tag"))
    else trackings
  if jsTrim search ≠ "" then
    let searchLower := jsTrim (lowerStr search)
    filtered.filter (fun tracking =>
      (searchableFields tracking).any (fun field => strContains field searchLower))
  else filtered

/-- Lexicographic comparison of codepoint lists, returning the sign as
`-1`, `0` or `1`. -/
def cmpList : List Nat → List Nat → Int
  | [], [] => 0
  | [], _ :: _ => -1
  | _ :: _, [] => 1
  | a :: as, b :: bs => if a < b then -1 else if b < a then 1 else cmpList as bs

/-- Modelled `String.prototype.localeCompare` under the default `en`
collation: case-insensitive comparison first, ties broken with lowercase
before uppercase. An approximation of the locale table; no claim depends on
the ordering of string-valued columns. -/
def localeCompareInt (a b : String) : Int :=
  let c := cmpList ((lowerStr a).data.map Char.toNat) ((lowerStr b).data.map Char.toNat)
  if c ≠ 0 then c
  else cmpList (a.data.map (fun ch => if isUpperAZ ch then 1 else 0))
    (b.data.map (fun ch => if isUpperAZ ch then 1 else 0))

/-- A comparator operand of `sortTrackings`: a string column's value, or a
date column's numeric timestamp where `none` models `NaN`. -/
inductive SortVal where
  | str (s : String)
  | num (n : Option Int)
deriving Repr, DecidableEq

/-- Column value extraction of `sortTrackings` (App.tsx lines 239-278): the
named string columns default to the empty string; the two date columns map
an empty (falsy) field to `0` and a non-empty field to `new Date(...)
.getTime()`, which is `NaN` (here `none`) when unparseable. -/
def sortValue (tracking : RawRow) (column : String) : SortVal :=
  if column = "tracking_number" then .str (rget tracking "tracking_number")
  else if column = "order_id" then .str (rget tracking "order_id")
  else if column = "po_number" then .str (rget tracking "po_number")
  else if column = "from_company" then .str (rget tracking "from_company")
  else if column = "recipient_name" then .str (rget tracking "recipient_name")
  else if column = "carrier" then .str (rget tracking "slug")
  else if column = "status" then .str (rget tracking "tag")
  else if column = "ship_date" then
    .num (if rget tracking "last_updated_at" ≠ ""
      then jsParseDateMs (rget tracking "last_updated_at") else some 0)
  else if column = "estimated_delivery" then
    .num (if rget tracking "estimated_delivery" ≠ ""
      then jsParseDateMs (rget tracking "estimated_delivery") else some 0)
  else .num (some 0)

/-- Numeric comparator branch `aValue - bValue`; `none` (`NaN`) propagates. -/
def jsSub (a b : Option Int) : Option Int :=
  match a, b with
  | some x, some y => some (x - y)
  | _, _ => none

/-- The comparator passed to the sort (App.tsx lines 235-287): string
columns compare locale-aware, date columns by numeric difference, in the
requested direction; `none` models a `NaN` comparator result. -/
def sortComparator (column direction : String) (a b : RawRow) : Option Int :=
  match sortValue a column, sortValue b column with
  | .str x, .str y =>
    some (if direction = "asc" then localeCompareInt x y else localeCompareInt y x)
  | .num x, .num y => if direction = "asc" then jsSub x y else jsSub y x
  | .str _, .num _ => none
  | .num _, .str _ => none

/-- Model of `sortTrackings` (App.tsx lines 230-288): the identity when the
column or the direction is unset, otherwise a stable sort by the comparator.
A `NaN` comparator result leaves the pair in its current relative order,
as the host engine's stable sort does. -/
def sortTrackings (trackings : List RawRow) (column direction : Option String) :
    List RawRow :=
  match column, direction with
  | some col, some dir =>
    trackings.mergeSort (fun a b =>
      match sortComparator col dir a b with
      | some n => n ≤ 0
      | none => true)
  | _, _ => trackings

/-- The tri-state sort selection: current column and direction, each
possibly unset. -/
structure SortState where
  column : Option String
  direction : Option String
deriving Repr, DecidableEq

/-- Model of `handleSort` (App.tsx lines 290-304): a repeated invocation on
the current column steps ascending to descending and descending to fully
unset, anything else on the current column to ascending; an invocation on a
different column selects it ascending. -/
def handleSort (state : SortState) (column : String) : SortState :=
  if state.column = some column then
    if state.direction = some "asc" then ⟨state.column, some "desc"⟩
    else if state.direction = some "desc" then ⟨none, none⟩
    else ⟨state.column, some "asc"⟩
  else ⟨some column, some "asc"⟩

/-! Theorems settling the claims. -/

/-- C5 counterexample: on the input `Acme Site - Chicago, IL` the code does
not return `Chicago` as the city — the first non-state part of the split is
the site name. -/
theorem c5_counterexample :
    parseDestination "Acme Site - Chicago, IL" ≠
      ⟨some "Chicago", some "IL"⟩ := by decide

/-- C5 (amended): `parseDestination "Acme Site - Chicago, IL"` returns the
state `IL` but the city `Acme Site` (the first non-state part), and
`parseDestination "Acme Site"` returns no city and no state. -/
theorem c5_parse_destination :
    parseDestination "Acme Site - Chicago, IL" = ⟨some "Acme Site", some "IL"⟩ ∧
    parseDestination "Acme Site" = ⟨none, none⟩ := by
  exact ⟨by decide, by decide⟩

/-- C4: `determineStatus` gives `in_transit` on empty or unparseable input;
a bare `YYYY-MM-DD` input is parsed from its local components and the
resulting calendar day is compared to the current day, giving `delivered`
strictly in the past, `out_for_delivery` exactly today and `in_transit`
strictly in the future; in particular, whenever today lies strictly between
2000-01-01 and 2099-01-01, `2000-01-01` is `delivered` and `2099-01-01` is
`in_transit`. -/
theorem c4_determine_status (today : Int)
    (h1 : jsMakeDay 2000 1 1 < today) (h2 : today < jsMakeDay 2099 1 1) :
    determineStatus today "" = "in_transit" ∧
    determineStatus today "not-a-date" = "in_transit" ∧
    determineStatus today "2000-01-01" = "delivered" ∧
    determineStatus today "2099-01-01" = "in_transit" ∧
    (∀ s y m d, s ≠ "" → bareDate (jsTrim s) = some (y, m, d) →
      determineStatus today s =
        if jsMakeDay y m d < today then "delivered"
        else if jsMakeDay y m d = today then "out_for_delivery"
        else "in_transit") := by
  have hgen : ∀ s y m d, s ≠ "" → bareDate (jsTrim s) = some (y, m, d) →
      determineStatus today s =
        if jsMakeDay y m d < today then "delivered"
        else if jsMakeDay y m d = today then "out_for_delivery"
        else "in_transit" := by
    intro s y m d hs hb
    unfold determineStatus
    rw [if_neg hs]
    simp only [hb]
  refine ⟨rfl, rfl, ?_, ?_, hgen⟩
  · rw [hgen "2000-01-01" 2000 1 1 (by decide) (by decide), if_pos h1]
  · rw [hgen "2099-01-01" 2099 1 1 (by decide) (by decide),
      if_neg (by omega), if_neg (by omega)]

/-- C4 witness: with today taken as 2026-10-11 the hypotheses hold and the
concrete example values come out as claimed. -/
theorem c4_determine_status_witness :
    jsMakeDay 2000 1 1 < daysFromCivil 2026 10 11 ∧
    daysFromCivil 2026 10 11 < jsMakeDay 2099 1 1 ∧
    determineStatus (daysFromCivil 2026 10 11) "2000-01-01" = "delivered" ∧
    determineStatus (daysFromCivil 2026 10 11) "2026-10-11" = "out_for_delivery" := by
  have h := c4_determine_status (daysFromCivil 2026 10 11) (by decide) (by decide)
  refine ⟨by decide, by decide, h.2.2.1, ?_⟩
  rw [h.2.2.2.2 "2026-10-11" 2026 10 11 (by decide) (by decide)]
  rw [if_neg (by decide), if_pos (by decide)]

/-- C10: `determineStatus` only ever returns `delivered`, `out_for_delivery`
or `in_transit`, so no reconciled record carries the tag `pending` or
`exception` even though the declared tag enumeration lists them. -/
theorem c10_status_range :
    (∀ today s, determineStatus today s = "delivered" ∨
      determineStatus today s = "out_for_delivery" ∨
      determineStatus today s = "in_transit") ∧
    (∀ today ordersData additionalData tracking,
      tracking ∈ reconcile today ordersData additionalData →
      rget tracking "tag" ≠ "pending" ∧ rget tracking "tag" ≠ "exception") := by
  have hthree : ∀ today s, determineStatus today s = "delivered" ∨
      determineStatus today s = "out_for_delivery" ∨
      determineStatus today s = "in_transit" := by
    intro today s
    dsimp only [determineStatus]
    repeat' split
    all_goals simp
  refine ⟨hthree, ?_⟩
  intro today ordersData additionalData tracking ht
  simp only [reconcile, List.mem_filter, List.mem_map] at ht
  obtain ⟨⟨p, -, rfl⟩, -⟩ := ht
  have htag : rget
      (buildTracking today p.2 p.1
        (matchSupplemental (buildAdditionalMap additionalData) additionalData p.2 p.1))
      "tag" = determineStatus today (rget p.2 "estimated_delivery") := rfl
  rw [htag]
  rcases hthree today (rget p.2 "estimated_delivery") with h | h | h <;> rw [h] <;>
    exact ⟨by decide, by decide⟩

/-- C10 witness: a record reconciled from a one-row primary source carries
neither the tag `pending` nor the tag `exception`. -/
theorem c10_status_range_witness :
    rget (buildTracking (daysFromCivil 2026 10 11) [("tracking_number", "TN1")] 0 [])
        "tag" ≠ "pending" ∧
    rget (buildTracking (daysFromCivil 2026 10 11) [("tracking_number", "TN1")] 0 [])
        "tag" ≠ "exception" :=
  c10_status_range.2 (daysFromCivil 2026 10 11) [[("tracking_number", "TN1")]] [] _
    (by decide)

/-- C9: the sort-direction state machine cycles unset, ascending, descending
and back to unset on repeated invocations on one column — three invocations
from the unset state restore it — and an invocation on a column other than
the current one selects that column ascending. -/
theorem c9_sort_cycle :
    (∀ c, handleSort ⟨none, none⟩ c = ⟨some c, some "asc"⟩) ∧
    (∀ c st, st.column = some c → st.direction = some "asc" →
      handleSort st c = ⟨some c, some "desc"⟩) ∧
    (∀ c st, st.column = some c → st.direction = some "desc" →
      handleSort st c = ⟨none, none⟩) ∧
    (∀ c, handleSort (handleSort (handleSort ⟨none, none⟩ c) c) c = ⟨none, none⟩) ∧
    (∀ c st, st.column ≠ some c → handleSort st c = ⟨some c, some "asc"⟩) := by
  refine ⟨?_, ?_, ?_, ?_, ?_⟩
  · intro c; simp [handleSort]
  · intro c st h1 h2; simp [handleSort, h1, h2]
  · intro c st h1 h2; simp [handleSort, h1, h2]
  · intro c; simp [handleSort]
  · intro c st h; unfold handleSort; rw [if_neg h]

/-- C9 witness: the transitions at the concrete column `carrier`, from a
state sorted ascending on `carrier` and from one sorted on `status`. -/
theorem c9_sort_cycle_witness :
    handleSort ⟨some "carrier", some "asc"⟩ "carrier" = ⟨some "carrier", some "desc"⟩ ∧
    handleSort ⟨some "carrier", some "desc"⟩ "carrier" = ⟨none, none⟩ ∧
    handleSort ⟨some "status", some "asc"⟩ "carrier" = ⟨some "carrier", some "asc"⟩ :=
  ⟨c9_sort_cycle.2.1 "carrier" _ (by decide) (by decide),
   c9_sort_cycle.2.2.1 "carrier" _ (by decide) (by decide),
   c9_sort_cycle.2.2.2.2 "carrier" _ (by decide)⟩

/-- C8: a fetch failure on the primary CSV source fails the whole load with
one wrapped error and no records, while a fetch failure on the supplemental
CSV source degrades to an empty supplemental row list and the load
proceeds. -/
theorem c8_fetch_failures :
    (∀ today statusText supplemental,
      loadTrackings today (.fail statusText) supplemental =
        .error ("Failed to load CSV file: " ++ ("Failed to load CSV: " ++ statusText))) ∧
    (∀ today rows statusText,
      loadTrackings today (.ok rows) (.fail statusText) =
        .ok (reconcile today rows [])) := by
  exact ⟨fun _ _ _ => rfl, fun _ _ _ => rfl⟩

/-- C1: every record reconciliation returns has a non-empty,
non-whitespace-only tracking number — the post-filter drops any constructed
record whose `tracking_number` is empty or trims to empty. -/
theorem c1_postfilter_tracking_number (today : Int)
    (ordersData additionalData : List RawRow) (tracking : RawRow)
    (h : tracking ∈ reconcile today ordersData additionalData) :
    rget tracking "tracking_number" ≠ "" ∧
    jsTrim (rget tracking "tracking_number") ≠ "" := by
  simp only [reconcile, List.mem_filter, Bool.and_eq_true, decide_eq_true_eq] at h
  exact h.2

/-- C1 witness: the record reconciled from a one-row primary source is
retained and its tracking number neither is empty nor trims to empty. -/
theorem c1_postfilter_tracking_number_witness :
    (buildTracking (daysFromCivil 2026 10 11) [("tracking_number", "TN1")] 0 [] ∈
      reconcile (daysFromCivil 2026 10 11) [[("tracking_number", "TN1")]] []) ∧
    rget (buildTracking (daysFromCivil 2026 10 11) [("tracking_number", "TN1")] 0 [])
      "tracking_number" ≠ "" ∧
    jsTrim (rget (buildTracking (daysFromCivil 2026 10 11) [("tracking_number", "TN1")] 0 [])
      "tracking_number") ≠ "" :=
  ⟨by decide,
   c1_postfilter_tracking_number (daysFromCivil 2026 10 11)
     [[("tracking_number", "TN1")]] []
     (buildTracking (daysFromCivil 2026 10 11) [("tracking_number", "TN1")] 0 [])
     (by decide)⟩

/-- C2: the supplemental match of a primary row resolves with first hit
wins in the order order-number lookup, tracking-number lookup, PO-number
lookup, positional row, empty match; in particular an order-number hit is
used whatever the other lookups hold. -/
theorem c2_join_precedence (additionalData : List RawRow) (row : RawRow) (index : Nat)
    (m : RawRow) :
    (mapGet (buildAdditionalMap additionalData) (lowerStr (rget row "order_number")) =
        some m →
      matchSupplemental (buildAdditionalMap additionalData) additionalData row index = m) ∧
    (mapGet (buildAdditionalMap additionalData) (lowerStr (rget row "order_number")) = none →
      mapGet (buildAdditionalMap additionalData) (lowerStr (rget row "tracking_number")) =
        some m →
      matchSupplemental (buildAdditionalMap additionalData) additionalData row index = m) ∧
    (mapGet (buildAdditionalMap additionalData) (lowerStr (rget row "order_number")) = none →
      mapGet (buildAdditionalMap additionalData) (lowerStr (rget row "tracking_number")) =
        none →
      mapGet (buildAdditionalMap additionalData) (lowerStr (rget row "po_number")) = some m →
      matchSupplemental (buildAdditionalMap additionalData) additionalData row index = m) ∧
    (mapGet (buildAdditionalMap additionalData) (lowerStr (rget row "order_number")) = none →
      mapGet (buildAdditionalMap additionalData) (lowerStr (rget row "tracking_number")) =
        none →
      mapGet (buildAdditionalMap additionalData) (lowerStr (rget row "po_number")) = none →
      matchSupplemental (buildAdditionalMap additionalData) additionalData row index =
        (additionalData.get? index).getD []) := by
  refine ⟨?_, ?_, ?_, ?_⟩
  · intro h1; simp [matchSupplemental, h1]
  · intro h1 h2; simp [matchSupplemental, h1, h2]
  · intro h1 h2 h3; simp [matchSupplemental, h1, h2, h3]
  · intro h1 h2 h3; simp [matchSupplemental, h1, h2, h3]

/-- C2 witness: a supplemental source with one row keyed by order number
`o1` and another keyed by tracking number `t1`, against a primary row whose
order number matches the first and whose tracking number matches the second:
the order-number match wins, and on a primary row matching nothing the
positional row is used. -/
theorem c2_join_precedence_witness :
    matchSupplemental
        (buildAdditionalMap [[("order_number", "o1"), ("note", "by-order")],
          [("tracking_number", "t1"), ("note", "by-tracking")]])
        [[("order_number", "o1"), ("note", "by-order")],
          [("tracking_number", "t1"), ("note", "by-tracking")]]
        [("order_number", "O1"), ("tracking_number", "T1")] 1 =
      [("order_number", "o1"), ("note", "by-order")] ∧
    matchSupplemental
        (buildAdditionalMap [[("order_number", "o1"), ("note", "by-order")],
          [("tracking_number", "t1"), ("note", "by-tracking")]])
        [[("order_number", "o1"), ("note", "by-order")],
          [("tracking_number", "t1"), ("note", "by-tracking")]]
        [("order_number", "X9")] 1 =
      [("tracking_number", "t1"), ("note", "by-tracking")] := by
  constructor
  · exact (c2_join_precedence _ [("order_number", "O1"), ("tracking_number", "T1")] 1
      [("order_number", "o1"), ("note", "by-order")]).1 (by decide)
  · exact (c2_join_precedence _ [("order_number", "X9")] 1 []).2.2.2
      (by decide) (by decide) (by decide)

/-- C3: the merge copies a supplemental key into the constructed record only
when the base record does not define it and the supplemental value is
non-empty, so every named base field reads the same whether or not a
supplemental match is merged. -/
theorem c3_merge_policy (today : Int) (row : RawRow) (index : Nat)
    (additionalInfo : RawRow) (k : String) :
    (baseTrackingKeys.contains k = true →
      rget (buildTracking today row index additionalInfo) k =
        rget (baseTracking today row index) k) ∧
    (∀ v, (k, v) ∈ buildTracking today row index additionalInfo →
      (k, v) ∈ baseTracking today row index ∨
        ((k, v) ∈ additionalInfo ∧ baseTrackingKeys.contains k = false ∧ v ≠ "")) := by
  constructor
  · intro hk
    have hmem : k ∈ baseTrackingKeys := by
      simpa using hk
    fin_cases hmem <;> rfl
  · intro v hv
    rcases List.mem_append.1 hv with hbase | hextra
    · exact Or.inl hbase
    · rw [List.mem_filter] at hextra
      refine Or.inr ⟨hextra.1, ?_, ?_⟩
      · have := hextra.2
        simp only [Bool.and_eq_true, Bool.not_eq_true'] at this
        exact this.1
      · have := hextra.2
        simp only [Bool.and_eq_true, decide_eq_true_eq] at this
        exact this.2

/-- C3 witness: a supplemental match defining `title` and an extra key: the
record's `title` keeps the base value, and the extra binding present in the
record indeed comes from the supplemental row, is no base key, and is
non-empty. -/
theorem c3_merge_policy_witness :
    (rget (buildTracking (daysFromCivil 2026 10 11)
        [("tracking_number", "TN1"), ("subject", "Base Title")] 0
        [("title", "HACK"), ("color", "Red")]) "title" =
      rget (baseTracking (daysFromCivil 2026 10 11)
        [("tracking_number", "TN1"), ("subject", "Base Title")] 0) "title") ∧
    (("color", "Red") ∈ buildTracking (daysFromCivil 2026 10 11)
        [("tracking_number", "TN1"), ("subject", "Base Title")] 0
        [("title", "HACK"), ("color", "Red")] →
      ("color", "Red") ∈ baseTracking (daysFromCivil 2026 10 11)
          [("tracking_number", "TN1"), ("subject", "Base Title")] 0 ∨
        (("color", "Red") ∈ [("title", "HACK"), ("color", "Red")] ∧
          baseTrackingKeys.contains "color" = false ∧ "Red" ≠ "")) :=
  ⟨(c3_merge_policy (daysFromCivil 2026 10 11) _ 0 _ "title").1 (by decide),
   fun h => (c3_merge_policy (daysFromCivil 2026 10 11) _ 0 _ "color").2 "Red" h⟩

/-- C7 counterexample: a record whose `ship_date` source field holds the
non-empty unparseable text `not-a-date` is not mapped to the timestamp `0` —
its extracted sort value is the invalid timestamp (`NaN`), which only an
empty field avoids. -/
theorem c7_counterexample :
    sortValue [("tracking_number", "TN1"), ("last_updated_at", "not-a-date")]
        "ship_date" ≠ .num (some 0) ∧
    sortValue [("tracking_number", "TN1"), ("last_updated_at", "not-a-date")]
        "ship_date" = .num none := by
  exact ⟨by decide, by decide⟩

/-- C7 (amended): `sortTrackings` with an unset direction or column returns
the records in identity order, and on the date columns records compare by
the parsed numeric timestamp of the field value, where an empty value is
mapped to `0` (sorting to the earliest position) while a non-empty
unparseable value yields an invalid (`NaN`) timestamp rather than `0`. -/
theorem c7_sort_identity_and_date_keys (trackings : List RawRow) :
    (∀ direction, sortTrackings trackings none direction = trackings) ∧
    (∀ column, sortTrackings trackings column none = trackings) ∧
    (∀ t, rget t "last_updated_at" = "" → sortValue t "ship_date" = .num (some 0)) ∧
    (∀ t, rget t "estimated_delivery" = "" →
      sortValue t "estimated_delivery" = .num (some 0)) ∧
    (∀ t ms, rget t "last_updated_at" ≠ "" →
      jsParseDateMs (rget t "last_updated_at") = some ms →
      sortValue t "ship_date" = .num (some ms)) ∧
    (∀ t ms, rget t "estimated_delivery" ≠ "" →
      jsParseDateMs (rget t "estimated_delivery") = some ms →
      sortValue t "estimated_delivery" = .num (some ms)) ∧
    (∀ a b x y, sortValue a "ship_date" = .num (some x) →
      sortValue b "ship_date" = .num (some y) →
      sortComparator "ship_date" "asc" a b = some (x - y)) := by
  refine ⟨?_, ?_, ?_, ?_, ?_, ?_, ?_⟩
  · intro direction; cases direction <;> rfl
  · intro column; cases column <;> rfl
  · intro t h; simp [sortValue, h]
  · intro t h; simp [sortValue, h]
  · intro t ms h hp; simp [sortValue, h, hp]
  · intro t ms h hp; simp [sortValue, h, hp]
  · intro a b x y ha hb; simp [sortComparator, ha, hb, jsSub]

/-- C7 witness: identity on a concrete list with direction unset, the empty
and the parseable date sort keys, and the comparator of two parseable
records. -/
theorem c7_sort_identity_and_date_keys_witness :
    sortTrackings [[("tracking_number", "TN1")]] (some "ship_date") none =
      [[("tracking_number", "TN1")]] ∧
    sortValue [("tracking_number", "TN1")] "ship_date" = .num (some 0) ∧
    sortValue [("last_updated_at", "2025-11-13")] "ship_date" =
      .num (some (daysFromCivil 2025 11 13 * 86400000)) ∧
    sortComparator "ship_date" "asc" [("last_updated_at", "2025-11-13")]
        [("last_updated_at", "2025-11-14")] =
      some (daysFromCivil 2025 11 13 * 86400000 - daysFromCivil 2025 11 14 * 86400000) :=
  ⟨(c7_sort_identity_and_date_keys [[("tracking_number", "TN1")]]).2.1 (some "ship_date"),
   (c7_sort_identity_and_date_keys []).2.2.1 [("tracking_number", "TN1")] (by decide),
   (c7_sort_identity_and_date_keys []).2.2.2.2.1 [("last_updated_at", "2025-11-13")] _
     (by decide) (by decide),
   (c7_sort_identity_and_date_keys []).2.2.2.2.2.2 _ _ _ _
     ((c7_sort_identity_and_date_keys []).2.2.2.2.1 [("last_updated_at", "2025-11-13")] _
       (by decide) (by decide))
     ((c7_sort_identity_and_date_keys []).2.2.2.2.1 [("last_updated_at", "2025-11-14")] _
       (by decide) (by decide))⟩

/-- Trimming only removes characters at the two ends, so the trimmed text
still occurs inside the original as a contiguous run. -/
theorem jsTrim_data_within (s : String) : (jsTrim s).data <:+: s.data := by
  obtain ⟨u, hu⟩ := List.dropWhile_suffix (l := s.data) isWS
  obtain ⟨w, hw⟩ := List.dropWhile_suffix (l := (s.data.dropWhile isWS).reverse) isWS
  refine ⟨u, w.reverse, ?_⟩
  have h2 := congrArg List.reverse hw
  rw [List.reverse_append, List.reverse_reverse] at h2
  calc u ++ (jsTrim s).data ++ w.reverse
      = u ++ ((List.dropWhile isWS ((s.data.dropWhile isWS).reverse)).reverse ++
          w.reverse) := by rw [List.append_assoc]; rfl
    _ = u ++ s.data.dropWhile isWS := by rw [h2]
    _ = s.data := hu

/-- C6 counterexample: a record with `estimated_delivery = 2099-01-01` is
not found when that exact field value is searched — the three date fields
are only searchable through their display rendering (`Jan 1, 2099`), so the
filtered result is empty and does not contain the record. -/
theorem c6_counterexample :
    rget [("tracking_number", "TN1"), ("estimated_delivery", "2099-01-01")]
        "estimated_delivery" = "2099-01-01" ∧
    filterTrackings [[("tracking_number", "TN1"), ("estimated_delivery", "2099-01-01")]]
        "2099-01-01" [] = [] := by
  exact ⟨by decide, by decide⟩

/-- C6 (amended): searching for the exact value of any non-empty field of a
record, in any letter case, with no status filter, returns a set containing
the record — for every field except `id` (never searched) and the three date
fields `last_updated_at`, `estimated_delivery`, `checkpoint_date` (searched
through their display rendering instead of the raw value). -/
theorem c6_search_roundtrip (trackings : List RawRow) (tracking : RawRow)
    (k v search : String)
    (hmem : tracking ∈ trackings)
    (hget : rget tracking k = v)
    (hne : v ≠ "")
    (hk : k ∉ (["id", "last_updated_at", "estimated_delivery", "checkpoint_date"] :
      List String))
    (hs : lowerStr search = lowerStr v) :
    tracking ∈ filterTrackings trackings search [] := by
  have hvmem : v ∈ allFieldValues tracking := by
    by_cases hkx : k ∈ excludedSearchKeys
    · simp only [excludedSearchKeys, List.mem_cons, List.not_mem_nil, or_false] at hkx
      rcases hkx with rfl | rfl | rfl | rfl | rfl | rfl | rfl | rfl | rfl | rfl | rfl |
        rfl | rfl | rfl | rfl | rfl
      · exact absurd (by simp) hk
      · rw [← hget]; simp [allFieldValues]
      · rw [← hget]; simp [allFieldValues]
      · rw [← hget]; simp [allFieldValues]
      · rw [← hget]; simp [allFieldValues]
      · rw [← hget]; simp [allFieldValues]
      · rw [← hget]; simp [allFieldValues]
      · rw [← hget]; simp [allFieldValues]
      · rw [← hget]; simp [allFieldValues]
      · rw [← hget]; simp [allFieldValues]
      · rw [← hget]; simp [allFieldValues]
      · rw [← hget]; simp [allFieldValues]
      · rw [← hget]; simp [allFieldValues]
      · exact absurd (by simp) hk
      · exact absurd (by simp) hk
      · exact absurd (by simp) hk
    · have hfind : tracking.find? (fun q => q.1 == k) = some (k, v) := by
        unfold rget at hget
        cases hf : tracking.find? (fun q => q.1 == k) with
        | none =>
          rw [hf] at hget
          have hempty : ("" : String) = v := by simpa using hget
          exact absurd hempty.symm hne
        | some p =>
          obtain ⟨a, b⟩ := p
          rw [hf] at hget
          have hb2 : b = v := by simpa using hget
          have ha : a = k := by
            have h3 := List.find?_some hf
            simpa using h3
          rw [ha, hb2]
      have hmem2 : (k, v) ∈ tracking := List.mem_of_find?_eq_some hfind
      have hcont : excludedSearchKeys.contains k = false := by
        cases hc : excludedSearchKeys.contains k
        · rfl
        · exact absurd (List.mem_of_elem_eq_true hc) hkx
      refine List.mem_append.2 (Or.inr ?_)
      refine List.mem_map.2 ⟨(k, v), ?_, rfl⟩
      refine List.mem_filter.2 ⟨hmem2, ?_⟩
      simp only [Bool.and_eq_true, Bool.not_eq_true', decide_eq_true_eq]
      exact ⟨hcont, hne⟩
  have hsf : lowerStr v ∈ searchableFields tracking := by
    unfold searchableFields
    refine List.mem_map.2 ⟨v, ?_, rfl⟩
    exact List.mem_filter.2 ⟨hvmem, by simp [hne]⟩
  by_cases hb : jsTrim search = ""
  · simp only [filterTrackings, List.length_nil, gt_iff_lt, lt_self_iff_false, if_false,
      ne_eq, hb, not_true_eq_false]
    exact hmem
  · simp only [filterTrackings, List.length_nil, gt_iff_lt, lt_self_iff_false, if_false,
      ne_eq, hb, not_false_eq_true, if_true]
    refine List.mem_filter.2 ⟨hmem, ?_⟩
    refine List.any_eq_true.2 ⟨lowerStr v, hsf, ?_⟩
    rw [hs]
    exact decide_eq_true (jsTrim_data_within (lowerStr v))

/-- C6 witness: the record with extension field `color = Red` is found by
searching `rED`, and by searching its tracking number `tn1` lower-cased. -/
theorem c6_search_roundtrip_witness :
    [("tracking_number", "TN1"), ("color", "Red")] ∈
      filterTrackings [[("tracking_number", "TN1"), ("color", "Red")]] "rED" [] ∧
    [("tracking_number", "TN1"), ("color", "Red")] ∈
      filterTrackings [[("tracking_number", "TN1"), ("color", "Red")]] "tn1" [] :=
  ⟨c6_search_roundtrip [[("tracking_number", "TN1"), ("color", "Red")]]
      [("tracking_number", "TN1"), ("color", "Red")] "color" "Red" "rED"
      (by decide) (by decide) (by decide) (by decide) (by decide),
   c6_search_roundtrip [[("tracking_number", "TN1"), ("color", "Red")]]
      [("tracking_number", "TN1"), ("color", "Red")] "tracking_number" "TN1" "tn1"
      (by decide) (by decide) (by decide) (by decide) (by decide)⟩
